import Mathlib

/-!
Verification of the bladeRF-cli application-state core
(host/utilities/bladeRF-cli/src/common.h).

The header defines the return-code constants, the error-type enum, the
error record and application-state structures, and the inline predicate
cli_fatal; the remaining operations are declared in the header with
documented contracts but their bodies are not among the given sources,
so they are modelled from the specification (each such definition says so
in its doc comment).  Locks are modelled by treating each lock-protected
operation as a single atomic step of a state-transition system.
-/

namespace BladeRFCli

/-! ### Return codes (common.h lines 32-55) -/

/-- Fatal error threshold: CLI_RETFATAL. -/
def CLI_RETFATAL : Int := -1024

/-- Memory allocation failure. -/
def CLI_RET_MEM : Int := CLI_RETFATAL

/-- Unexpected failure. -/
def CLI_RET_UNKNOWN : Int := CLI_RETFATAL - 1

/-- Got request to quit. -/
def CLI_RET_QUIT : Int := -1

/-- Non-existant command. -/
def CLI_RET_NOCMD : Int := -2

/-- Maximum number of arguments reached. -/
def CLI_RET_MAX_ARGC : Int := -3

/-- Invalid parameters passed. -/
def CLI_RET_INVPARAM : Int := -4

/-- See cli_state for libbladeRF error. -/
def CLI_RET_LIBBLADERF : Int := -5

/-- No device is currently opened. -/
def CLI_RET_NODEV : Int := -6

/-- Invalid number of arguments provided. -/
def CLI_RET_NARGS : Int := -7

/-- FPGA not programmed. -/
def CLI_RET_NOFPGA : Int := -8

/-- Operation invalid for current state. -/
def CLI_RET_STATE : Int := -9

/-- File operation failed. -/
def CLI_RET_FILEOP : Int := -10

/-- Device is currently busy. -/
def CLI_RET_BUSY : Int := -11

/-- Command OK. -/
def CLI_RET_OK : Int := 0

/-- Clear the terminal. -/
def CLI_RET_CLEAR_TERM : Int := 1

/-- Run a script. -/
def CLI_RET_RUN_SCRIPT : Int := 2

/-! ### Error classification (common.h lines 58-77, 135) -/

/-- enum error_type: differentiates error code types. -/
inductive error_type
  /-- Invalid value that should never occur. -/
  | ETYPE_BUG
  /-- CLI_RET cli error code. -/
  | ETYPE_CLI
  /-- libbladeRF error code. -/
  | ETYPE_BLADERF
  /-- errno value. -/
  | ETYPE_ERRNO
deriving DecidableEq, Repr

/-- struct cli_error: information about the last error encountered.
The pthread mutex field is not represented as data; the lock discipline is
modelled by making each of the operations below one atomic step. -/
structure cli_error where
  /-- Last command error. -/
  value : Int
  /-- Type/source of last error. -/
  type : error_type
deriving DecidableEq, Repr

/-- cli_fatal from common.h line 135:
true if the provided return code is fatal, false otherwise
(the body is `status <= CLI_RETFATAL`). -/
def cli_fatal (status : Int) : Bool := status ≤ CLI_RETFATAL

/-! ### ErrorRecord operations

The bodies of cli_error_init, set_last_error and get_last_error are not in
the given sources; only their declarations and contracts are (common.h
lines 147-176). -/

/-- Modelled from the spec: cli_error_init, declared at common.h line 151
with body not among the sources.  Per the spec, init sets kind and code to
the no-error sentinel (kind = CliError, code = 0). -/
def cli_error_init : cli_error := { value := 0, type := .ETYPE_CLI }

/-- Modelled from the spec: set_last_error, declared at common.h line 165
with body not among the sources.  Per the spec it atomically replaces both
fields and always succeeds. -/
def set_last_error (e : cli_error) (t : error_type) (error : Int) : cli_error :=
  { e with type := t, value := error }

/-- Modelled from the spec: get_last_error, declared at common.h line 176
with body not among the sources.  Per the spec it atomically reads both
fields as a consistent pair (returned through the two out-parameters). -/
def get_last_error (e : cli_error) : error_type × Int := (e.type, e.value)

/-! ### Atomic-step trace semantics for the error record (claim C1)

Because every access holds the one lock of the record, each
set_last_error / get_last_error call is a single atomic step; an arbitrary
interleaving of N concurrent callers is therefore an arbitrary finite
sequence of these events. -/

/-- One lock-protected access to a cli_error record. -/
inductive ErrEvent
  /-- A set_last_error call writing both fields together. -/
  | set (t : error_type) (v : Int)
  /-- A get_last_error call. -/
  | get
deriving DecidableEq, Repr

/-- The pairs observed by the get_last_error calls of an event sequence,
starting from record state e. -/
def errObservations (e : cli_error) : List ErrEvent → List (error_type × Int)
  | [] => []
  | .get :: evs => get_last_error e :: errObservations e evs
  | .set t v :: evs => errObservations (set_last_error e t v) evs

/-! ### Application state (common.h lines 82-119)

struct cli_state holds the device pointer, a device lock, the last
libbladeRF error, the open-script list and the RX/TX data.  The bodies of
cli_state_create, cli_device_is_opened and cli_device_is_streaming are not
among the sources.  The opaque `struct bladerf *` reference is modelled as
`Option Nat` (none = no device open); each `struct rxtx_data *` is
represented by the streaming-active indicator the spec attributes to it. -/

/-- One entry of the script stack (see the ScriptStack component below). -/
structure script where
  /-- Path identifier of the script file. -/
  path : String
  /-- Current line number, for error messages. -/
  lineNo : Nat
deriving DecidableEq, Repr

/-- struct cli_state from common.h lines 82-93.  The dev_lock mutex is
modelled by making each state operation one atomic step. -/
structure cli_state where
  /-- Device currently in use; none when no device is open. -/
  dev : Option Nat
  /-- Last libbladeRF error. -/
  last_lib_error : Int
  /-- Open script files, innermost first. -/
  scripts : List script
  /-- The RX rxtx_data streaming-active indicator. -/
  rx_running : Bool
  /-- The TX rxtx_data streaming-active indicator. -/
  tx_running : Bool
deriving DecidableEq, Repr

/-- Modelled from the spec: cli_state_create, declared at common.h
line 100 with body not among the sources.  A freshly created state has no
device open, no scripts, and no active streams. -/
def cli_state_create : cli_state :=
  { dev := none, last_lib_error := 0, scripts := [], rx_running := false,
    tx_running := false }

/-- Modelled from the spec: cli_device_is_opened, declared at common.h
line 112 with body not among the sources.  True iff the device reference
is non-null. -/
def cli_device_is_opened (s : cli_state) : Bool := s.dev.isSome

/-- Modelled from the spec: cli_device_is_streaming, declared at common.h
line 119 with body not among the sources.  True iff at least one of the
RX/TX streaming indicators is active. -/
def cli_device_is_streaming (s : cli_state) : Bool :=
  s.rx_running || s.tx_running

/-- Modelled from the spec: the lock-atomic operations that mutate the
device reference and streaming flags (device open/close by the driver
collaborator, setStreaming by the streaming subsystem). -/
inductive StateEvent
  /-- A successful device-open storing reference r. -/
  | openDev (r : Nat)
  /-- A device close clearing the reference. -/
  | closeDev
  /-- setStreaming(direction, active); isTx selects the TX indicator. -/
  | setStreaming (isTx : Bool) (active : Bool)
deriving DecidableEq, Repr

/-- One atomic state transition under the device lock. -/
def stateStep (s : cli_state) : StateEvent → cli_state
  | .openDev r => { s with dev := some r }
  | .closeDev => { s with dev := none }
  | .setStreaming isTx active =>
      if isTx then { s with tx_running := active }
      else { s with rx_running := active }

/-- Run a sequence of atomic state transitions. -/
def runState (s : cli_state) : List StateEvent → cli_state
  | [] => s
  | ev :: evs => runState (stateStep s ev) evs

/-- Modelled from the spec: the StateCoordinator owns one ErrorRecord next
to the cli_state of common.h (the composition described in section 3 of
the spec); withDevice records its failure there. -/
structure Coordinator where
  /-- The application state of common.h. -/
  st : cli_state
  /-- The owned ErrorRecord. -/
  last_error : cli_error
deriving DecidableEq, Repr

/-- Modelled from the spec: withDevice, the sole sanctioned way to perform
a device-control call (the scoped acquisition of dev_lock, common.h lines
83-85).  If no device is open it reports the no-device condition to the
ErrorRecord with kind CliError and code CLI_RET_NODEV, without invoking
the wrapped operation; otherwise it runs the wrapped operation on the open
device reference. -/
def withDevice (c : Coordinator) (fn : Nat → Coordinator → Coordinator × Int) :
    Coordinator × Int :=
  match c.st.dev with
  | none =>
      ({ c with
          last_error := set_last_error c.last_error .ETYPE_CLI CLI_RET_NODEV },
        CLI_RET_NODEV)
  | some d => fn d c

/-! ### Error formatting (common.h lines 137-145)

cli_strerror(error, lib_error) is declared in the header with the contract
that lib_error (a BLADERF_ERR_* code) is only used when error is
CLI_RET_LIBBLADERF; its body is not among the sources. -/

/-- Modelled from the spec: the device-driver collaborator message
formatter for BLADERF_ERR_* codes (libbladeRF, outside this core); driver
codes form their own numbering space, so its messages carry the driver
tag. -/
def bladerf_strerror (lib_error : Int) : String :=
  "libbladeRF error " ++ toString lib_error

/-- Modelled from the spec: cli_strerror, declared at common.h line 145
with body not among the sources.  Per the header contract it returns a
brief description of the CLI_RET_* code, consulting lib_error only when
the code is CLI_RET_LIBBLADERF; the per-code descriptions are taken from
the doc comments of the CLI_RET_* constants in common.h. -/
def cli_strerror (error lib_error : Int) : String :=
  if error = CLI_RET_LIBBLADERF then bladerf_strerror lib_error
  else if error = CLI_RET_MEM then "Memory allocation failure"
  else if error = CLI_RET_UNKNOWN then "Unexpected failure"
  else if error = CLI_RET_QUIT then "Got request to quit"
  else if error = CLI_RET_NOCMD then "Non-existant command"
  else if error = CLI_RET_MAX_ARGC then "Maximum number of arguments reached"
  else if error = CLI_RET_INVPARAM then "Invalid parameters passed"
  else if error = CLI_RET_NODEV then "No device is currently opened"
  else if error = CLI_RET_NARGS then "Invalid number of arguments provided"
  else if error = CLI_RET_NOFPGA then "FPGA Not Programmed"
  else if error = CLI_RET_STATE then "Operation invalid for current state"
  else if error = CLI_RET_FILEOP then "File operation failed"
  else if error = CLI_RET_BUSY then "Device is currently busy"
  else "Unknown error"

/-- Modelled from the spec: classify(code, kind, deviceCode), the pure
formatting entry point of the StateCoordinator; the kind tag is a
mandatory argument that selects the numbering space of the code, and the
message is never guessed from the code value alone. -/
def classify (code : Int) (kind : error_type) (deviceCode : Int) : String :=
  match kind with
  | .ETYPE_CLI => cli_strerror code deviceCode
  | .ETYPE_BLADERF => bladerf_strerror code
  | .ETYPE_ERRNO => "System error " ++ toString code
  | .ETYPE_BUG => "An invalid error type was encountered"

/-! ### Script stack (common.h line 89)

struct script is opaque in the header (only the `struct script *scripts`
member appears); the stack operations are modelled from the spec. -/

/-- Interactive (stack empty) versus Scripted(depth) (stack non-empty). -/
inductive ScriptMode
  /-- No script source active; reading from the interactive prompt. -/
  | Interactive
  /-- depth nested script sources are active. -/
  | Scripted (depth : Nat)
deriving DecidableEq, Repr

/-- The state-machine mode of a script stack. -/
def scriptMode (stack : List script) : ScriptMode :=
  if stack.length = 0 then .Interactive else .Scripted stack.length

/-- Modelled from the spec: push(path) appends a new innermost entry with
line number 1; it fails, leaving the stack untouched, when the source
cannot be opened (openOk false) or when the configured maximum nesting
depth would be exceeded.  The Bool of the result reports success. -/
def scriptPush (maxDepth : Nat) (stack : List script) (path : String)
    (openOk : Bool) : List script × Bool :=
  if openOk = false then (stack, false)
  else if maxDepth ≤ stack.length then (stack, false)
  else ({ path := path, lineNo := 1 } :: stack, true)

/-- Modelled from the spec: pop() removes and releases the innermost
entry. -/
def scriptPop (stack : List script) : List script := stack.tail

/-! ### First claims -/

/-- Helper: every observation from state e is either the pair currently
held by e or the pair of some single set event of the trace. -/
theorem errObservations_mem (e : cli_error) (evs : List ErrEvent)
    (obs : error_type × Int) (hobs : obs ∈ errObservations e evs) :
    obs = get_last_error e ∨ ∃ t v, ErrEvent.set t v ∈ evs ∧ obs = (t, v) := by
  induction evs generalizing e with
  | nil => simp [errObservations] at hobs
  | cons ev evs ih =>
    cases ev with
    | get =>
      simp only [errObservations, List.mem_cons] at hobs
      rcases hobs with h | h
      · exact Or.inl h
      · rcases ih e h with h | ⟨t, v, hmem, hv⟩
        · exact Or.inl h
        · exact Or.inr ⟨t, v, List.mem_cons_of_mem _ hmem, hv⟩
    | set t v =>
      simp only [errObservations] at hobs
      rcases ih (set_last_error e t v) hobs with h | ⟨t', v', hmem, hv⟩
      · exact Or.inr ⟨t, v, List.mem_cons_self .., h⟩
      · exact Or.inr ⟨t', v', List.mem_cons_of_mem _ hmem, hv⟩

/-- C1: over any sequence of lock-atomic set_last_error / get_last_error
events on an initialized cli_error record (the sequence standing for an
arbitrary interleaving of concurrent callers), every get_last_error call
observes either the initialization sentinel or a (type, value) pair written
together by one set_last_error call; a type from one write is never paired
with a value from another. -/
theorem get_last_error_no_mixing (evs : List ErrEvent) (obs : error_type × Int)
    (hobs : obs ∈ errObservations cli_error_init evs) :
    obs = (error_type.ETYPE_CLI, 0) ∨
      ∃ t v, ErrEvent.set t v ∈ evs ∧ obs = (t, v) :=
  errObservations_mem cli_error_init evs obs hobs

/-- Witness for C1 on a concrete two-writer interleaving. -/
theorem get_last_error_no_mixing_witness :
    (error_type.ETYPE_BLADERF, (7 : Int)) = (error_type.ETYPE_CLI, 0) ∨
      ∃ t v, ErrEvent.set t v ∈
          [ErrEvent.set .ETYPE_CLI 3, ErrEvent.set .ETYPE_BLADERF 7, ErrEvent.get] ∧
        (error_type.ETYPE_BLADERF, (7 : Int)) = (t, v) :=
  get_last_error_no_mixing
    [ErrEvent.set .ETYPE_CLI 3, ErrEvent.set .ETYPE_BLADERF 7, ErrEvent.get]
    (error_type.ETYPE_BLADERF, 7) (by decide)

/-- C2: cli_fatal is true exactly on the fatal codes (status at or below
CLI_RETFATAL, which covers CLI_RET_MEM and CLI_RET_UNKNOWN) and false on
every recoverable command-level code CLI_RET_QUIT .. CLI_RET_BUSY. -/
theorem cli_fatal_classifies :
    (∀ status : Int, cli_fatal status = true ↔ status ≤ CLI_RETFATAL) ∧
    cli_fatal CLI_RET_MEM = true ∧
    cli_fatal CLI_RET_UNKNOWN = true ∧
    cli_fatal CLI_RET_QUIT = false ∧
    cli_fatal CLI_RET_NOCMD = false ∧
    cli_fatal CLI_RET_MAX_ARGC = false ∧
    cli_fatal CLI_RET_INVPARAM = false ∧
    cli_fatal CLI_RET_LIBBLADERF = false ∧
    cli_fatal CLI_RET_NODEV = false ∧
    cli_fatal CLI_RET_NARGS = false ∧
    cli_fatal CLI_RET_NOFPGA = false ∧
    cli_fatal CLI_RET_STATE = false ∧
    cli_fatal CLI_RET_FILEOP = false ∧
    cli_fatal CLI_RET_BUSY = false := by
  refine ⟨fun status => ?_, ?_⟩
  · simp [cli_fatal]
  · decide

/-- C3: immediately after cli_error_init and before any set_last_error,
get_last_error returns the no-error sentinel (ETYPE_CLI, 0). -/
theorem get_last_error_after_init :
    get_last_error cli_error_init = (error_type.ETYPE_CLI, 0) := rfl

/-- C4: set_last_error followed by get_last_error with no intervening
write returns exactly the written pair; both fields are replaced and the
operation is total (always succeeds). -/
theorem set_then_get (e : cli_error) (t : error_type) (v : Int) :
    get_last_error (set_last_error e t v) = (t, v) := rfl

/-- Helper: without any successful open event the device reference stays
null. -/
theorem runState_dev_none (evs : List StateEvent) (s : cli_state)
    (hdev : s.dev = none) (hno : ∀ r, StateEvent.openDev r ∉ evs) :
    (runState s evs).dev = none := by
  induction evs generalizing s with
  | nil => exact hdev
  | cons ev evs ih =>
    have hno' : ∀ r, StateEvent.openDev r ∉ evs := by
      intro r hmem
      exact hno r (List.mem_cons_of_mem _ hmem)
    cases ev with
    | openDev r => exact absurd (List.mem_cons_self ..) (hno r)
    | closeDev => exact ih { s with dev := none } rfl hno'
    | setStreaming isTx active =>
      cases isTx with
      | false => exact ih { s with rx_running := active } hdev hno'
      | true => exact ih { s with tx_running := active } hdev hno'

/-- C5: immediately after cli_state_create no device is opened; the query
becomes true only after a successful device-open event set the reference;
and cli_device_is_streaming is true iff at least one of the RX/TX
streaming indicators is active. -/
theorem device_opened_streaming_characterization :
    cli_device_is_opened cli_state_create = false ∧
    (∀ evs : List StateEvent,
      cli_device_is_opened (runState cli_state_create evs) = true →
        ∃ r, StateEvent.openDev r ∈ evs) ∧
    (∀ s : cli_state,
      cli_device_is_streaming s = true ↔
        (s.rx_running = true ∨ s.tx_running = true)) := by
  refine ⟨rfl, fun evs hopen => ?_, fun s => ?_⟩
  · by_contra hno
    push_neg at hno
    have : (runState cli_state_create evs).dev = none :=
      runState_dev_none evs cli_state_create rfl hno
    rw [cli_device_is_opened, this] at hopen
    simp at hopen
  · simp [cli_device_is_streaming, Bool.or_eq_true]

/-- Witness for C5 at a concrete event sequence containing an open. -/
theorem device_opened_streaming_characterization_witness :
    ∃ r, StateEvent.openDev r ∈
      [StateEvent.setStreaming true true, StateEvent.openDev 5] :=
  device_opened_streaming_characterization.2.1
    [StateEvent.setStreaming true true, StateEvent.openDev 5] (by decide)

/-- C6: with no device open, withDevice fails with CLI_RET_NODEV, records
(CliError, CLI_RET_NODEV) in the ErrorRecord, and never invokes the
wrapped operation (its outcome does not depend on the wrapped operation at
all). -/
theorem withDevice_no_device (c : Coordinator)
    (fn g : Nat → Coordinator → Coordinator × Int) (hdev : c.st.dev = none) :
    (withDevice c fn).2 = CLI_RET_NODEV ∧
    get_last_error (withDevice c fn).1.last_error =
      (error_type.ETYPE_CLI, CLI_RET_NODEV) ∧
    withDevice c fn = withDevice c g := by
  unfold withDevice
  rw [hdev]
  exact ⟨rfl, rfl, rfl⟩

/-- Witness for C6 on a concrete unopened coordinator and two wrapped
operations that would behave differently if invoked. -/
theorem withDevice_no_device_witness :
    (withDevice
        { st := cli_state_create, last_error := cli_error_init }
        (fun _ c => (c, 99))).2 = CLI_RET_NODEV ∧
    get_last_error (withDevice
        { st := cli_state_create, last_error := cli_error_init }
        (fun _ c => (c, 99))).1.last_error =
      (error_type.ETYPE_CLI, CLI_RET_NODEV) ∧
    withDevice { st := cli_state_create, last_error := cli_error_init }
        (fun _ c => (c, 99)) =
      withDevice { st := cli_state_create, last_error := cli_error_init }
        (fun _ c => (c, 77)) :=
  withDevice_no_device { st := cli_state_create, last_error := cli_error_init }
    (fun _ c => (c, 99)) (fun _ c => (c, 77)) rfl

/-- C10: the success code CLI_RET_OK and the positive state-change codes
CLI_RET_CLEAR_TERM and CLI_RET_RUN_SCRIPT are never classified as fatal. -/
theorem cli_fatal_false_on_success_codes :
    cli_fatal CLI_RET_OK = false ∧
    cli_fatal CLI_RET_CLEAR_TERM = false ∧
    cli_fatal CLI_RET_RUN_SCRIPT = false := by decide

/-- Helper: every libbladeRF-space message begins with the character l. -/
theorem bladerf_strerror_head (X : Int) :
    (bladerf_strerror X).data.head? = some 'l' := rfl

/-- Helper: a libbladeRF-space message never equals a string whose first
character is not l. -/
theorem bladerf_strerror_ne (X : Int) (m : String)
    (hm : m.data.head? ≠ some 'l') : bladerf_strerror X ≠ m := by
  intro he
  exact hm (he ▸ bladerf_strerror_head X)

/-- Helper: an if-then-else avoids a value that both branches avoid. -/
theorem ite_ne_of_branches {α : Type} (c : Prop) [Decidable c] {a b x : α}
    (ha : a ≠ x) (hb : b ≠ x) : (if c then a else b) ≠ x := by
  by_cases h : c
  · rw [if_pos h]
    exact ha
  · rw [if_neg h]
    exact hb

/-- Helper: outside the CLI_RET_LIBBLADERF case, no cli_strerror message
begins with the character l, so none lies in the libbladeRF message
space. -/
theorem cli_strerror_head (X d : Int) (h : X ≠ CLI_RET_LIBBLADERF) :
    (cli_strerror X d).data.head? ≠ some 'l' := by
  unfold cli_strerror
  rw [if_neg h]
  simp only [apply_ite (fun s : String => s.data.head?)]
  refine ite_ne_of_branches _ (by decide) ?_
  refine ite_ne_of_branches _ (by decide) ?_
  refine ite_ne_of_branches _ (by decide) ?_
  refine ite_ne_of_branches _ (by decide) ?_
  refine ite_ne_of_branches _ (by decide) ?_
  refine ite_ne_of_branches _ (by decide) ?_
  refine ite_ne_of_branches _ (by decide) ?_
  refine ite_ne_of_branches _ (by decide) ?_
  refine ite_ne_of_branches _ (by decide) ?_
  refine ite_ne_of_branches _ (by decide) ?_
  refine ite_ne_of_branches _ (by decide) ?_
  exact ite_ne_of_branches _ (by decide) (by decide)

/-- C7: the formatter takes the error kind as a mandatory argument (see
the signature of classify) and, for every numeric code X, formatting X as
a device (libbladeRF) error and formatting X as a CLI error produce
different messages: the kind, never the code value alone, disambiguates
the overlapping numbering spaces. -/
theorem classify_kind_disambiguates (X : Int) :
    classify X .ETYPE_BLADERF 0 ≠ classify X .ETYPE_CLI 0 := by
  simp only [classify]
  by_cases h5 : X = CLI_RET_LIBBLADERF
  · subst h5
    decide
  · intro he
    have hh := congrArg (fun s : String => s.data.head?) he
    simp only at hh
    rw [bladerf_strerror_head X] at hh
    exact cli_strerror_head X 0 h5 hh.symm

/-- Witness for C7 at the concrete code 3. -/
theorem classify_kind_disambiguates_witness :
    classify 3 .ETYPE_BLADERF 0 ≠ classify 3 .ETYPE_CLI 0 :=
  classify_kind_disambiguates 3

/-- C9: for every error code other than CLI_RET_LIBBLADERF, the string
returned by cli_strerror does not depend on the lib_error argument. -/
theorem cli_strerror_ignores_lib_error (error x y : Int)
    (h : error ≠ CLI_RET_LIBBLADERF) :
    cli_strerror error x = cli_strerror error y := by
  unfold cli_strerror
  rw [if_neg h, if_neg h]

/-- Witness for C9 at a concrete non-libbladeRF code and two different
lib_error values. -/
theorem cli_strerror_ignores_lib_error_witness :
    cli_strerror CLI_RET_NODEV 3 = cli_strerror CLI_RET_NODEV 99 :=
  cli_strerror_ignores_lib_error CLI_RET_NODEV 3 99 (by decide)

/-- C8: pushing beyond the configured maximum nesting depth fails and
leaves the script stack unchanged; popping reaches the Interactive state
exactly when the depth reaches 0; and the only transitions are
Interactive or Scripted(n) to Scripted(n+1) on a successful push,
Scripted(n) to Scripted(n-1) on a pop at depth n larger than 1,
Scripted(1) to Interactive on a pop at depth 1, and no move at all on a
failed push. -/
theorem script_stack_transitions :
    (∀ (m : Nat) (st : List script) (p : String) (ok : Bool),
      m ≤ st.length → scriptPush m st p ok = (st, false)) ∧
    (∀ st : List script,
      scriptMode (scriptPop st) = .Interactive ↔ (scriptPop st).length = 0) ∧
    (∀ (st : List script) (n : Nat), scriptMode st = .Scripted n →
      scriptMode (scriptPop st) =
        if n = 1 then .Interactive else .Scripted (n - 1)) ∧
    (∀ (m : Nat) (st : List script) (p : String) (ok : Bool),
      (scriptPush m st p ok).2 = true →
        scriptMode (scriptPush m st p ok).1 = .Scripted (st.length + 1)) ∧
    (∀ (m : Nat) (st : List script) (p : String) (ok : Bool),
      (scriptPush m st p ok).2 = false → (scriptPush m st p ok).1 = st) := by
  refine ⟨fun m st p ok h => ?_, fun st => ?_, fun st n h => ?_,
    fun m st p ok h => ?_, fun m st p ok h => ?_⟩
  · cases ok <;> simp [scriptPush, h]
  · by_cases h : (scriptPop st).length = 0 <;> simp [scriptMode, h]
  · match st with
    | [] => simp [scriptMode] at h
    | a :: rest =>
      have hn : rest.length + 1 = n := by
        simpa [scriptMode] using h
      subst hn
      match rest with
      | [] => simp [scriptMode, scriptPop]
      | b :: rs => simp [scriptMode, scriptPop]
  · cases ok with
    | false => simp [scriptPush] at h
    | true =>
      by_cases hm : m ≤ st.length
      · simp [scriptPush, hm] at h
      · simp [scriptPush, hm, scriptMode]
  · cases ok with
    | false => simp [scriptPush]
    | true =>
      by_cases hm : m ≤ st.length
      · simp [scriptPush, hm]
      · simp [scriptPush, hm] at h

/-- Witness for C8: a push onto a full stack of depth 1 with maximum
depth 1 fails and returns the stack unchanged. -/
theorem script_stack_transitions_witness :
    scriptPush 1 [{ path := "a.cfg", lineNo := 4 }] "b.cfg" true =
      ([{ path := "a.cfg", lineNo := 4 }], false) :=
  script_stack_transitions.1 1 [{ path := "a.cfg", lineNo := 4 }] "b.cfg"
    true (by decide)

end BladeRFCli
